import Mathlib

/-!
# Verification of the ai-analysis engine

Shallow embedding of `packages/ai-analysis/src` (sentiment_analyzer.py,
alert_generator.py, recommendation_engine.py, anomaly_detector.py,
code_quality_analyzer.py) together with proofs about the embedded
operations.

Modelling conventions:
* Python `float` values are modelled as exact rationals (`ℚ`); all the
  thresholds appearing in the code (`0.2`, `0.3`, `0.25`, `0.4`, ...) are
  dyadic/decimal literals carried over exactly.
* `datetime` timestamps are modelled as rational numbers of days since an
  arbitrary epoch; `.date()` is `Int.floor`, `timedelta(days=i)` is `+ i`,
  `timedelta(hours=1)` is `+ 1/24`.
* The HuggingFace text-classification pipeline and the IsolationForest
  model are external capabilities; they are passed in as explicit function
  arguments (`classify`, `model`).  A raised exception is an
  `Except.error` value.
* `uuid.uuid4()` identifiers and `datetime.now()` creation stamps are
  nondeterministic and carry no information used by any claim; they are
  omitted from the embedded records.
* Python f-strings that embed floating point values rendered with `:.1f`
  are modelled structurally: the record field stores the cited values
  themselves (constructor of an inductive `description`/`message` type)
  rather than the rendered text.  F-strings embedding integers only are
  rendered as actual strings.
-/

/- Batteries marks the `Rat` arithmetic operations `@[irreducible]`, which
blocks kernel-style evaluation by `decide` on concrete rational inputs.
The embedding evaluates programs on concrete inputs, so restore the
default reducibility of these (kernel-transparent anyway) definitions. -/
set_option allowUnsafeReducibility true
attribute [semireducible] Rat.add Rat.mul Rat.inv Rat.sub Rat.div Rat.neg
attribute [semireducible] Rat.normalize Rat.ofScientific Rat.blt

namespace AIAnalysis

/-! ## Python string primitives

All text processing is done on `List Char` (a Lean `String` wraps exactly
such a list), mirroring Python's code-point based semantics. -/

/-- ASCII whitespace stripped by Python's `str.strip()` (space, tab,
newline, carriage return, form feed, vertical tab). -/
def pyIsSpace (c : Char) : Bool :=
  c = ' ' || c = '\t' || c = '\n' || c = '\r' || c = Char.ofNat 12 || c = Char.ofNat 11

/-- Python `str.strip()` on a code-point list. -/
def pyStrip (cs : List Char) : List Char :=
  ((cs.dropWhile pyIsSpace).reverse.dropWhile pyIsSpace).reverse

/-- Python `str.lower()` restricted to ASCII (the labels produced by the
classifier and compared against by the code are ASCII). -/
def pyLower (cs : List Char) : List Char :=
  cs.map fun c => if 'A' ≤ c ∧ c ≤ 'Z' then Char.ofNat (c.toNat + 32) else c

/-- Python `str.split('\n')`: e.g. `"" ↦ [""]`, `"a\n" ↦ ["a", ""]`. -/
def splitLinesChars : List Char → List (List Char)
  | [] => [[]]
  | c :: rest =>
    match splitLinesChars rest with
    | [] => [[]]
    | line :: more => if c = '\n' then [] :: line :: more else (c :: line) :: more

/-- `Severity = Literal['low','medium','high']` from types.py. -/
inductive Severity where
  | low
  | medium
  | high
deriving DecidableEq, Repr, BEq

/-- Sentiment label `Literal['positive','neutral','negative']` from types.py. -/
inductive SentLabel where
  | positive
  | neutral
  | negative
deriving DecidableEq, Repr, BEq

/-- `SentimentScore` record from types.py: signed score, label, confidence. -/
structure SentimentScore where
  score : ℚ
  label : SentLabel
  confidence : ℚ
deriving DecidableEq, Repr, BEq

/-! ## SentimentAnalyzer (sentiment_analyzer.py)

The classifier capability `classify : String → Except Unit (String × ℚ)`
models `self._pipeline(text)[0]`, returning the raw `label` string and the
`score` (confidence) field, or an error when the pipeline raises. -/

/-- Result of one classifier invocation: raw label and confidence. -/
abbrev ClassifyFn := String → Except Unit (String × ℚ)

/-- `SentimentAnalyzer.analyze_sentiment` (sentiment_analyzer.py lines 27-77).
Empty/whitespace text short-circuits to neutral with confidence 1; a
classifier error yields neutral with confidence 0; otherwise the raw label
is lowercased, mapped to a signed score, and the final label is re-derived
from the score by the fixed 0.2 thresholds. -/
def analyze_sentiment (classify : ClassifyFn) (text : String) : SentimentScore :=
  if pyStrip text.data = [] then
    { score := 0, label := .neutral, confidence := 1 }
  else
    match classify (String.mk (text.data.take 512)) with
    | .error _ => { score := 0, label := .neutral, confidence := 0 }
    | .ok (rawLabel, confidence) =>
      let label := pyLower rawLabel.data
      let score : ℚ :=
        if label = "positive".data then confidence
        else if label = "negative".data then -confidence
        else 0
      let finalLabel : SentLabel :=
        if score > 1/5 then .positive
        else if score < -(1/5) then .negative
        else .neutral
      { score := score, label := finalLabel, confidence := confidence }

/-- `SentimentAnalyzer.analyze_comments`: element-wise map. -/
def analyze_comments (classify : ClassifyFn) (comments : List String) : List SentimentScore :=
  comments.map (analyze_sentiment classify)

/-- `SentimentAnalyzer.get_average_sentiment` (sentiment_analyzer.py lines 91-123). -/
def get_average_sentiment (classify : ClassifyFn) (comments : List String) : SentimentScore :=
  if comments = [] then
    { score := 0, label := .neutral, confidence := 1 }
  else
    let scores := analyze_comments classify comments
    let avg_score : ℚ := (scores.map (·.score)).sum / scores.length
    let avg_confidence : ℚ := (scores.map (·.confidence)).sum / scores.length
    let label : SentLabel :=
      if avg_score > 1/5 then .positive
      else if avg_score < -(1/5) then .negative
      else .neutral
    { score := avg_score, label := label, confidence := avg_confidence }

/-! ## AlertGenerator (alert_generator.py)

Only `generate_sentiment_alerts` is embedded: it is the operation the
claims are about. -/

/-- Structured rendering of the alert message f-strings: each constructor
records exactly the values the corresponding f-string cites. -/
inductive AlertMessage where
  | highNegativeSentiment (pr : ℤ) (negFraction : ℚ)
  | elevatedNegativeSentiment (pr : ℤ) (negFraction : ℚ)
  | veryNegativeComment (pr : ℤ) (position : ℕ) (score : ℚ)
deriving DecidableEq, Repr

/-- `Alert` record from types.py (the random `id` and the `createdAt`
stamp are omitted, see the module docstring). -/
structure Alert where
  type : String
  severity : Severity
  message : AlertMessage
  relatedEntity : String
deriving DecidableEq, Repr

/-- `negative_ratio = len(negative_comments) / len(sentiment_scores)`
(alert_generator.py lines 109-110). -/
def negative_fraction_of (scores : List SentimentScore) : ℚ :=
  ((scores.filter (fun s => s.label = .negative)).length : ℚ) / scores.length

/-- The at-most-one ratio-based alert of `generate_sentiment_alerts`
(alert_generator.py lines 112-130): high above 0.4, medium above 0.25. -/
def ratio_based_alerts (pr_number : ℤ) (scores : List SentimentScore) : List Alert :=
  if negative_fraction_of scores > 2/5 then
    [{ type := "negative_sentiment", severity := .high,
       message := .highNegativeSentiment pr_number (negative_fraction_of scores),
       relatedEntity := toString pr_number }]
  else if negative_fraction_of scores > 1/4 then
    [{ type := "negative_sentiment", severity := .medium,
       message := .elevatedNegativeSentiment pr_number (negative_fraction_of scores),
       relatedEntity := toString pr_number }]
  else []

/-- The per-comment alerts of `generate_sentiment_alerts`
(alert_generator.py lines 132-142): score below -0.7 with confidence
above 0.8, referencing the 1-based comment position. -/
def very_negative_alerts (pr_number : ℤ) (scores : List SentimentScore) : List Alert :=
  scores.enum.filterMap fun p =>
    if p.2.score < -(7/10) ∧ p.2.confidence > 4/5 then
      some { type := "very_negative_comment", severity := .medium,
             message := .veryNegativeComment pr_number (p.1 + 1) p.2.score,
             relatedEntity := toString pr_number }
    else none

/-- `AlertGenerator.generate_sentiment_alerts` (alert_generator.py lines
88-144): empty input short-circuits; otherwise the ratio-based alert (if
any) followed by the per-comment alerts, in comment order. -/
def generate_sentiment_alerts (pr_number : ℤ) (sentiment_scores : List SentimentScore) :
    List Alert :=
  if sentiment_scores = [] then []
  else ratio_based_alerts pr_number sentiment_scores ++
    very_negative_alerts pr_number sentiment_scores

/-- The `negative_sentiment`-typed alerts among the generated ones (the
subject of claim C4). -/
def neg_sentiment_alerts (pr_number : ℤ) (scores : List SentimentScore) : List Alert :=
  (generate_sentiment_alerts pr_number scores).filter
    (fun a => a.type = "negative_sentiment")

/-! ## Activities and AnomalyDetector (anomaly_detector.py) -/

/-- `ActivityMetadata` from types.py; absent keys read as 0 through
`Option.getD`, mirroring `metadata.get(key, 0)`. -/
structure ActivityMetadata where
  linesAdded : Option ℤ := none
  linesDeleted : Option ℤ := none
  filesChanged : Option ℤ := none
deriving DecidableEq, Repr

/-- `Activity` from types.py.  The timestamp is a rational number of days
since an arbitrary epoch (`.date()` is the floor, `timedelta(days=i)` is
`+ i`). -/
structure Activity where
  id : String := ""
  type : String := "commit"
  developerId : String := ""
  repositoryId : String := ""
  timestamp : ℚ := 0
  metadata : ActivityMetadata := {}
deriving DecidableEq, Repr

/-- Structured rendering of the anomaly description f-strings: the
constructor records exactly the values the f-string cites (current count
and the window average for a productivity drop, the activity type for an
unusual pattern). -/
inductive AnomalyDescription where
  | productivityDrop (current : ℕ) (recentAvg : ℚ)
  | unusualPattern (activityType : String)
deriving DecidableEq, Repr

/-- `Anomaly` from types.py (random `id` and `detectedAt` omitted);
`affectedStart`/`affectedStop` are the `affectedTimeRange` bounds. -/
structure Anomaly where
  developerId : String
  type : String
  severity : Severity
  description : AnomalyDescription
  affectedStart : ℚ
  affectedStop : ℚ
  validated : Bool
deriving DecidableEq, Repr

namespace AnomalyDetector

/-- Stable insertion of an activity into a timestamp-sorted list. -/
def insertByTs (a : Activity) : List Activity → List Activity
  | [] => [a]
  | b :: l => if a.timestamp ≤ b.timestamp then a :: b :: l else b :: insertByTs a l

/-- Python `sorted(activities, key=lambda a: a['timestamp'])`: a stable
sort by timestamp. -/
def sortActivities (activities : List Activity) : List Activity :=
  activities.foldr insertByTs []

/-- `AnomalyDetector._calculate_daily_counts` (anomaly_detector.py lines
149-165): one bucket per calendar day from the first activity's date to
the last activity's date, counting activities per day. -/
def calculate_daily_counts (activities : List Activity) : List ℕ :=
  match activities.head?, activities.getLast? with
  | none, _ => []
  | _, none => []
  | some a0, some aN =>
    let start_date : ℤ := ⌊a0.timestamp⌋
    let days : ℕ := (⌊aN.timestamp⌋ - start_date + 1).toNat
    activities.foldl (fun counts act =>
      let day_index : ℤ := ⌊act.timestamp⌋ - start_date
      if 0 ≤ day_index ∧ day_index < (days : ℤ) then
        counts.set day_index.toNat (counts.getD day_index.toNat 0 + 1)
      else counts) (List.replicate days 0)

/-- The daily counts of the timestamp-sorted activity list (the list the
productivity-drop pass slides its window over). -/
def dailyOf (activities : List Activity) : List ℕ :=
  calculate_daily_counts (sortActivities activities)

/-- `sorted_activities[0]['timestamp']` (0 for an empty list). -/
def firstTs (activities : List Activity) : ℚ :=
  ((sortActivities activities).head?.map (fun a => a.timestamp)).getD 0

/-- `np.mean(daily_counts[i-window_size:i])` for `window_size = 7`. -/
def windowAvg (activities : List Activity) (i : ℕ) : ℚ :=
  ((((dailyOf activities).drop (i - 7)).take 7).map (fun n : ℕ => (n : ℚ))).sum / 7

/-- `daily_counts[i]` (0 out of range; the pass only reads in range). -/
def dayCount (activities : List Activity) (i : ℕ) : ℕ :=
  (dailyOf activities).getD i 0

/-- The anomaly record appended by `_detect_productivity_drops` for day
index `i`: severity high iff the day's count is 0, description citing the
current count and window average, affected range of 24 hours starting at
`sorted_activities[0].timestamp + i` days. -/
def mkDropAnomaly (developer_id : String) (t0 : ℚ) (i : ℕ)
    (current : ℕ) (recent_avg : ℚ) : Anomaly :=
  { developerId := developer_id, type := "productivity_drop",
    severity := if current = 0 then .high else .medium,
    description := .productivityDrop current recent_avg,
    affectedStart := t0 + i, affectedStop := t0 + i + 1,
    validated := false }

/-- `AnomalyDetector._detect_productivity_drops` (anomaly_detector.py
lines 62-105). -/
def detect_productivity_drops (developer_id : String) (activities : List Activity) :
    List Anomaly :=
  if activities.length < 14 then []
  else if (dailyOf activities).length < 7 then []
  else
    (List.range' 7 ((dailyOf activities).length - 7)).filterMap fun i =>
      if 2 < windowAvg activities i ∧
          (dayCount activities i : ℚ) < windowAvg activities i * (3/10) then
        some (mkDropAnomaly developer_id (firstTs activities) i
          (dayCount activities i) (windowAvg activities i))
      else none

/-- The IsolationForest capability: a feature matrix in, a per-row
prediction out (−1 marks an outlier), or an error when fitting raises. -/
abbrev OutlierModelFn := List (List ℚ) → Except Unit (List ℤ)

/-- `AnomalyDetector._encode_activity_type`. -/
def encode_activity_type (activity_type : String) : ℕ :=
  if activity_type = "commit" then 0
  else if activity_type = "pull_request" then 1
  else if activity_type = "issue" then 2
  else if activity_type = "review" then 3
  else 0

/-- `timestamp.hour` for a fractional-days timestamp. -/
def hourOf (t : ℚ) : ℤ := ⌊(t - ⌊t⌋) * 24⌋

/-- `timestamp.weekday()` for a fractional-days timestamp (the epoch day
is taken to be a Monday). -/
def weekdayOf (t : ℚ) : ℤ := ⌊t⌋ % 7

/-- `AnomalyDetector._extract_features` (anomaly_detector.py lines
167-187). -/
def extract_features (activities : List Activity) : List (List ℚ) :=
  activities.map fun a =>
    [(hourOf a.timestamp : ℚ), (weekdayOf a.timestamp : ℚ),
     (encode_activity_type a.type : ℚ),
     ((a.metadata.linesAdded.getD 0 + a.metadata.linesDeleted.getD 0 : ℤ) : ℚ),
     ((a.metadata.filesChanged.getD 0 : ℤ) : ℚ)]

/-- `AnomalyDetector._detect_unusual_patterns` (anomaly_detector.py lines
107-147), parametric in the outlier model; a model error yields no
anomalies from this pass. -/
def detect_unusual_patterns (model : OutlierModelFn) (developer_id : String)
    (activities : List Activity) : List Anomaly :=
  if activities.length < 20 then []
  else if (extract_features activities).length < 20 then []
  else
    match model (extract_features activities) with
    | .error _ => []
    | .ok predictions =>
      -- `activities[i]` raising IndexError inside the try-block (model
      -- returning more predictions than rows) is caught and yields [].
      if activities.length < predictions.length then []
      else (predictions.zip activities).filterMap fun p =>
        if p.1 = -1 then
          some { developerId := developer_id, type := "unusual_pattern",
                 severity := .low, description := .unusualPattern p.2.type,
                 affectedStart := p.2.timestamp,
                 affectedStop := p.2.timestamp + 1/24,
                 validated := false }
        else none

/-- `AnomalyDetector.detect_anomalies` (anomaly_detector.py lines 31-60):
below 10 activities no detection; otherwise productivity-drop anomalies
followed by unusual-pattern anomalies. -/
def detect_anomalies (model : OutlierModelFn) (developer_id : String)
    (activities : List Activity) : List Anomaly :=
  if activities.length < 10 then []
  else detect_productivity_drops developer_id activities ++
    detect_unusual_patterns model developer_id activities

end AnomalyDetector

/-! ## CodeQualityAnalyzer (code_quality_analyzer.py)

The regular-expression scans of the source are modelled as explicit
left-to-right non-overlapping scans over the code-point list; `\w` is
`[A-Za-z0-9_]` and `\s` is ASCII whitespace (the ASCII restriction of the
Python classes, which is all the scanned keywords exercise). -/

/-- A regex `\w` character. -/
def isWordChar (c : Char) : Bool := c.isAlphanum || c = '_'

/-- Strips `needle` from the head of a list or fails. -/
def dropPrefixChars : List Char → List Char → Option (List Char)
  | [], cs => some cs
  | _ :: _, [] => none
  | p :: ps, c :: cs => if p = c then dropPrefixChars ps cs else none

/-- `needle` occurs somewhere in the haystack (Python's `in`). -/
def containsSub (needle : List Char) : List Char → Bool
  | [] => decide (needle = [])
  | c :: rest => needle.isPrefixOf (c :: rest) || containsSub needle rest

/-- Does `\b<kw>\b` match at the head of `cs`, given that the character
before `cs` (if any) was a non-word character? -/
def wordMatchHere (kw cs : List Char) : Bool :=
  match dropPrefixChars kw cs with
  | none => false
  | some [] => true
  | some (c :: _) => !isWordChar c

/-- Leftmost non-overlapping scan counting matches of a pattern
(`re.findall` semantics).  `try_ cs` returns the length of a match at the
head of `cs`, `prevNonWord` says whether the previous character (if any)
was a non-word character, and the fuel bounds the number of steps. -/
def scanCount (try_ : Bool → List Char → Option ℕ) : ℕ → Bool → List Char → ℕ
  | 0, _, _ => 0
  | _ + 1, _, [] => 0
  | fuel + 1, prevNonWord, c :: rest =>
    match try_ prevNonWord (c :: rest) with
    | some n => 1 + scanCount try_ fuel false (List.drop (n - 1) rest)
    | none => scanCount try_ fuel (!isWordChar c) rest

namespace CodeQualityAnalyzer

/-- The control-flow keywords of `_analyze_complexity`, each counted as a
`\b<kw>\b` pattern. -/
def control_flow_keywords : List (List Char) :=
  ["if", "else", "elif", "for", "while", "try", "except", "catch",
   "switch", "case"].map String.data

/-- Count of all control-flow keyword matches in the code
(code_quality_analyzer.py lines 66-73). -/
def count_control_flow (code : List Char) : ℕ :=
  (control_flow_keywords.map fun kw =>
    scanCount
      (fun prevNonWord cs =>
        if prevNonWord && wordMatchHere kw cs then some kw.length else none)
      (code.length + 1) true code).sum

/-- `len(line) - len(line.lstrip())`. -/
def leading_ws_count (line : List Char) : ℕ := (line.takeWhile pyIsSpace).length

/-- `CodeQualityAnalyzer._analyze_complexity` (code_quality_analyzer.py
lines 47-91). -/
def analyze_complexity (code : String) (language : String) : ℚ :=
  if pyStrip code.data = [] then 100
  else
    let lines := splitLinesChars code.data
    let non_empty_lines := lines.filter (fun l => pyStrip l ≠ [])
    if non_empty_lines = [] then 100
    else
      let keyword_count := count_control_flow code.data
      let max_indent := (non_empty_lines.map leading_ws_count).foldl max 0
      let nesting_level := max_indent / 4
      let complexity_indicators := keyword_count + nesting_level * 2
      let lines_of_code := non_empty_lines.length
      let complexity_fraction : ℚ := (complexity_indicators : ℚ) / (max lines_of_code 1)
      max 0 (min 100 (100 - complexity_fraction * 200))

/-- Both Python triple-quote markers. -/
def contains_triple_quote (stripped : List Char) : Bool :=
  containsSub ['"', '"', '"'] stripped ||
  containsSub [Char.ofNat 39, Char.ofNat 39, Char.ofNat 39] stripped

/-- One step of the Python-docstring counting loop
(code_quality_analyzer.py lines 113-120); the state is the
`in_docstring` flag and the running `doc_lines` count.  The flag is
toggled once per line whose stripped form contains a triple-quote
marker. -/
def doc_line_step (st : Bool × ℕ) (line : List Char) : Bool × ℕ :=
  let stripped := pyStrip line
  if contains_triple_quote stripped then (!st.1, st.2 + 1)
  else if st.1 || "#".data.isPrefixOf stripped then (st.1, st.2 + 1)
  else st

/-- Documentation line count for `language = 'python'`. -/
def doc_lines_python (lines : List (List Char)) : ℕ :=
  (lines.foldl doc_line_step (false, 0)).2

/-- Documentation line count for other languages
(code_quality_analyzer.py lines 121-127). -/
def doc_lines_generic (lines : List (List Char)) : ℕ :=
  (lines.filter fun l =>
    let s := pyStrip l
    "//".data.isPrefixOf s || "#".data.isPrefixOf s ||
    "/*".data.isPrefixOf s || "*".data.isPrefixOf s).length

/-- Match attempt for the MULTILINE pattern `^\s*<kw>\s+\w+` at a
line-start position: `\s*`, then the keyword, then `\s+` (one or more),
then `\w+`; both whitespace runs may span newlines.  Since `\s` and the
keyword/word characters are disjoint, each greedy run is forced, so the
attempt is deterministic; returns the consumed length. -/
def declMatchLen (kw : List Char) (cs : List Char) : Option ℕ :=
  match dropPrefixChars kw (cs.dropWhile pyIsSpace) with
  | none => none
  | some r =>
    let wsRun := r.takeWhile pyIsSpace
    if wsRun = [] then none
    else
      let nameRun := (r.dropWhile pyIsSpace).takeWhile isWordChar
      if nameRun = [] then none
      else some ((cs.takeWhile pyIsSpace).length + kw.length + wsRun.length + nameRun.length)

/-- Leftmost non-overlapping count of matches of a `^`-anchored
`re.MULTILINE` pattern (`re.findall` semantics): a match may begin only
at the start of the string or right after a newline, and scanning resumes
at the end of each match.  `try_ cs` returns the length of a match
beginning at the head of `cs`; matches of the patterns used here end in a
`\w` character, so the position after a match is never a line start.  The
fuel bounds the number of steps. -/
def scanCountLineStart (try_ : List Char → Option ℕ) : ℕ → Bool → List Char → ℕ
  | 0, _, _ => 0
  | _ + 1, _, [] => 0
  | fuel + 1, atLineStart, c :: rest =>
    if atLineStart then
      match try_ (c :: rest) with
      | some n => 1 + scanCountLineStart try_ fuel false (List.drop (n - 1) rest)
      | none => scanCountLineStart try_ fuel (c = '\n') rest
    else scanCountLineStart try_ fuel (c = '\n') rest

/-- `len(re.findall(r'^\s*<kw>\s+\w+', code, re.MULTILINE))`. -/
def count_decl_pattern (kw : List Char) (code : List Char) : ℕ :=
  scanCountLineStart (declMatchLen kw) (code.length + 1) true code

/-- Count of function/class definitions (code_quality_analyzer.py lines
129-138): the three MULTILINE findall counts over the whole code for
`def`, `function` and `class` declarations, summed. -/
def count_definitions (code : List Char) : ℕ :=
  count_decl_pattern "def".data code +
  count_decl_pattern "function".data code +
  count_decl_pattern "class".data code

/-- `CodeQualityAnalyzer._analyze_documentation` (code_quality_analyzer.py
lines 93-151). -/
def analyze_documentation (code : String) (language : String) : ℚ :=
  if pyStrip code.data = [] then 100
  else
    let lines := splitLinesChars code.data
    let non_empty_lines := lines.filter (fun l => pyStrip l ≠ [])
    if non_empty_lines = [] then 100
    else
      let doc_lines : ℕ :=
        if language = "python" then doc_lines_python lines else doc_lines_generic lines
      let definitions := count_definitions code.data
      let doc_fraction : ℚ :=
        if definitions > 0 then
          min 1 ((doc_lines : ℚ) / (definitions * 2 : ℕ))
        else
          min 1 ((doc_lines : ℚ) / ((non_empty_lines.length : ℚ) * (1/10)))
      doc_fraction * 100

/-- Match attempt for `\bdef\s+<name>` at the head of `cs` returning the
consumed length; `nameOk` inspects the text from the start of the name
(`fun _ => true` for `\w+`, an uppercase-first check for `[A-Z]\w+`). -/
def defMatchLen (nameOk : List Char → Bool) (prevNonWord : Bool) (cs : List Char) :
    Option ℕ :=
  if !prevNonWord then none
  else
    match dropPrefixChars "def".data cs with
    | none => none
    | some r =>
      let wsRun := r.takeWhile pyIsSpace
      if wsRun = [] then none
      else
        let afterWs := r.dropWhile pyIsSpace
        let nameRun := afterWs.takeWhile isWordChar
        if nameRun = [] then none
        else if nameOk afterWs then some (3 + wsRun.length + nameRun.length)
        else none

/-- `[A-Z]\w+`: first character ASCII uppercase, at least one more word
character. -/
def upperNameOk : List Char → Bool
  | c1 :: c2 :: _ => ('A' ≤ c1 && c1 ≤ 'Z') && isWordChar c2
  | _ => false

/-- `len(re.findall(r'\bdef\s+\w+', code))`. -/
def count_def_checks (code : List Char) : ℕ :=
  scanCount (defMatchLen fun _ => true) (code.length + 1) true code

/-- `len(re.findall(r'\bdef\s+([A-Z]\w+)', code))`. -/
def count_bad_def_names (code : List Char) : ℕ :=
  scanCount (defMatchLen upperNameOk) (code.length + 1) true code

/-- `CodeQualityAnalyzer._analyze_standards` (code_quality_analyzer.py
lines 153-201). -/
def analyze_standards (code : String) (language : String) : ℚ :=
  if pyStrip code.data = [] then 100
  else
    let lines := splitLinesChars code.data
    let checked_lines := lines.filter (fun l => pyStrip l ≠ [])
    let length_checks := checked_lines.length
    let length_violations := (checked_lines.filter (fun l => l.length > 100)).length
    let indent_sizes :=
      ((lines.filter (fun l => pyStrip l ≠ [])).map leading_ws_count).filter (fun n => n > 0)
    let indent_checks := indent_sizes.length
    let indent_violations := (indent_sizes.filter (fun n => n % 2 ≠ 0)).length
    let naming_checks := if language = "python" then count_def_checks code.data else 0
    let naming_violations := if language = "python" then count_bad_def_names code.data else 0
    let total_checks := length_checks + indent_checks + naming_checks
    let violations := length_violations + indent_violations + naming_violations
    if total_checks = 0 then 100
    else max 0 (min 100 (100 - ((violations : ℚ) / total_checks) * 100))

/-- The lookahead `(?=\ndef\s|\nclass\s|\Z)` of the long-function
pattern. -/
def bodyEndHere : List Char → Bool
  | [] => true
  | c :: rest =>
    c = '\n' &&
      ((match dropPrefixChars "def".data rest with
        | some (w :: _) => pyIsSpace w
        | _ => false) ||
       (match dropPrefixChars "class".data rest with
        | some (w :: _) => pyIsSpace w
        | _ => false))

/-- The lazy `.*?` of the long-function pattern: consume characters up to
the first position where the lookahead holds (DOTALL: newlines
included). -/
def takeBody : List Char → List Char × List Char
  | [] => ([], [])
  | c :: rest =>
    if bodyEndHere (c :: rest) then ([], c :: rest)
    else
      let p := takeBody rest
      (c :: p.1, p.2)

/-- Match attempt for `def\s+\w+.*?(?=\ndef\s|\nclass\s|\Z)` at the head
of `cs` (no word-boundary in the source pattern): matched text and
consumed length. -/
def funcMatch (cs : List Char) : Option (List Char × ℕ) :=
  match dropPrefixChars "def".data cs with
  | none => none
  | some r =>
    let wsRun := r.takeWhile pyIsSpace
    if wsRun = [] then none
    else
      let afterWs := r.dropWhile pyIsSpace
      let nameRun := afterWs.takeWhile isWordChar
      if nameRun = [] then none
      else
        let body := (takeBody (afterWs.drop nameRun.length)).1
        let matched := "def".data ++ wsRun ++ nameRun ++ body
        some (matched, matched.length)

/-- All matches of the long-function pattern, left to right,
non-overlapping (`re.findall` with DOTALL). -/
def scanFunctions : ℕ → List Char → List (List Char)
  | 0, _ => []
  | _ + 1, [] => []
  | fuel + 1, c :: rest =>
    match funcMatch (c :: rest) with
    | some (matched, n) => matched :: scanFunctions fuel (List.drop (n - 1) rest)
    | none => scanFunctions fuel rest

/-- `CodeQualityAnalyzer._identify_issues` (code_quality_analyzer.py
lines 203-231). -/
def identify_issues (code : String) (language : String)
    (complexity_score documentation_score standards_score : ℚ) : List String :=
  (if complexity_score < 50 then
    ["High code complexity detected - consider refactoring"] else []) ++
  (if documentation_score < 40 then
    ["Insufficient documentation - add docstrings and comments"] else []) ++
  (if standards_score < 60 then
    ["Coding standards violations detected - check line length and naming conventions"]
   else []) ++
  (if language = "python" then
    (scanFunctions (code.data.length + 1) code.data).filterMap fun func =>
      let func_lines := ((splitLinesChars func).filter (fun l => pyStrip l ≠ [])).length
      if func_lines > 50 then
        some ("Function exceeds 50 lines (" ++ toString func_lines ++
          " lines) - consider breaking it down")
      else none
   else [])

end CodeQualityAnalyzer

/-- `CodeQualityReport` from types.py. -/
structure CodeQualityReport where
  commitHash : String
  complexity : ℚ
  documentation : ℚ
  standards : ℚ
  overallScore : ℚ
  issues : List String
deriving DecidableEq, Repr

/-- `CodeQualityAnalyzer.analyze_code_quality` (code_quality_analyzer.py
lines 18-45). -/
def CodeQualityAnalyzer.analyze_code_quality (commit_hash : String) (code : String)
    (language : String := "python") : CodeQualityReport :=
  let complexity_score := CodeQualityAnalyzer.analyze_complexity code language
  let documentation_score := CodeQualityAnalyzer.analyze_documentation code language
  let standards_score := CodeQualityAnalyzer.analyze_standards code language
  let issues := CodeQualityAnalyzer.identify_issues code language
    complexity_score documentation_score standards_score
  { commitHash := commit_hash,
    complexity := complexity_score,
    documentation := documentation_score,
    standards := standards_score,
    overallScore := (complexity_score + documentation_score + standards_score) / 3,
    issues := issues }

/-! ## RecommendationEngine (recommendation_engine.py) -/

/-- Structured rendering of the recommendation description f-strings:
each constructor records the values its f-string cites (plain-literal
descriptions carry none). -/
inductive RecDescription where
  | reviewParticipation (reviewFraction : ℚ)
  | morePullRequests
  | addressProductivityDrop
  | codeComplexity (avg : ℚ)
  | documentation (avg : ℚ)
  | codingStandards (avg : ℚ)
  | collaborationTone (negFraction : ℚ)
deriving DecidableEq, Repr

/-- `Recommendation` from types.py (random `id` and `createdAt`
omitted). -/
structure Recommendation where
  developerId : String
  type : String
  title : String
  description : RecDescription
  actionItems : List String
  priority : Severity
deriving DecidableEq, Repr

/-- Python `int()` truncation toward zero on a rational. -/
def pyIntTrunc (q : ℚ) : ℤ := if 0 ≤ q then ⌊q⌋ else ⌈q⌉

namespace RecommendationEngine

/-- `activity_counts[t]`: activities of one of the four known types are
counted, others ignored (recommendation_engine.py lines 75-85). -/
def activity_type_count (activities : List Activity) (t : String) : ℕ :=
  (activities.filter (fun a => a.type = t)).length

/-- `total_activities = sum(activity_counts.values())`. -/
def counted_total (activities : List Activity) : ℕ :=
  activity_type_count activities "commit" +
  activity_type_count activities "pull_request" +
  activity_type_count activities "issue" +
  activity_type_count activities "review"

/-- `RecommendationEngine._analyze_activity_patterns`
(recommendation_engine.py lines 63-128). -/
def analyze_activity_patterns (developer_id : String) (activities : List Activity) :
    List Recommendation :=
  if activities = [] then []
  else
    (if counted_total activities > 10 ∧
        (activity_type_count activities "review" : ℚ) / counted_total activities < 3/20 then
      [{ developerId := developer_id, type := "code_review_participation",
         title := "Increase Code Review Participation",
         description := .reviewParticipation
           ((activity_type_count activities "review" : ℚ) / counted_total activities),
         actionItems :=
           ["Review " ++ toString (pyIntTrunc ((counted_total activities : ℚ) * (1/5) -
              activity_type_count activities "review")) ++ " more pull requests this week",
            "Set aside 30 minutes daily for code reviews",
            "Subscribe to PR notifications for your team"],
         priority := .medium }]
     else []) ++
    (if counted_total activities > 10 ∧
        (activity_type_count activities "pull_request" : ℚ) / counted_total activities < 1/10 then
      [{ developerId := developer_id, type := "pull_request_creation",
         title := "Create More Pull Requests",
         description := .morePullRequests,
         actionItems :=
           ["Break large features into smaller PRs",
            "Aim for PRs under 400 lines of code",
            "Submit PRs at least twice per week"],
         priority := .low }]
     else [])

/-- `RecommendationEngine._analyze_anomalies` (recommendation_engine.py
lines 130-158). -/
def analyze_anomalies (developer_id : String) (anomalies : List Anomaly) :
    List Recommendation :=
  let productivity_drops := anomalies.filter (fun a => a.type = "productivity_drop")
  if productivity_drops = [] then []
  else if productivity_drops.filter (fun a => a.severity = .high) = [] then []
  else
    [{ developerId := developer_id, type := "productivity_recovery",
       title := "Address Productivity Drop",
       description := .addressProductivityDrop,
       actionItems :=
         ["Identify any blockers or dependencies",
          "Reach out to team lead if you need support",
          "Review your current task priorities"],
       priority := .high }]

/-- `RecommendationEngine._analyze_code_quality` (recommendation_engine.py
lines 160-230). -/
def analyze_code_quality (developer_id : String)
    (quality_reports : List CodeQualityReport) : List Recommendation :=
  if quality_reports = [] then []
  else
    let n : ℚ := quality_reports.length
    let avg_complexity := (quality_reports.map (fun r => r.complexity)).sum / n
    let avg_documentation := (quality_reports.map (fun r => r.documentation)).sum / n
    let avg_standards := (quality_reports.map (fun r => r.standards)).sum / n
    (if avg_complexity < 50 then
      [{ developerId := developer_id, type := "code_complexity",
         title := "Reduce Code Complexity",
         description := .codeComplexity avg_complexity,
         actionItems :=
           ["Break down complex functions into smaller ones",
            "Reduce nesting levels in control flow",
            "Extract repeated logic into helper functions",
            "Consider using design patterns for complex logic"],
         priority := .high }]
     else []) ++
    (if avg_documentation < 40 then
      [{ developerId := developer_id, type := "documentation",
         title := "Improve Code Documentation",
         description := .documentation avg_documentation,
         actionItems :=
           ["Add docstrings to all functions and classes",
            "Document complex logic with inline comments",
            "Include usage examples in docstrings",
            "Update documentation when changing code"],
         priority := .medium }]
     else []) ++
    (if avg_standards < 60 then
      [{ developerId := developer_id, type := "coding_standards",
         title := "Follow Coding Standards",
         description := .codingStandards avg_standards,
         actionItems :=
           ["Keep lines under 100 characters",
            "Use consistent indentation (4 spaces)",
            "Follow naming conventions for your language",
            "Run linter before committing code"],
         priority := .low }]
     else [])

/-- `RecommendationEngine._analyze_sentiment` (recommendation_engine.py
lines 232-267).  (The source also computes an average sentiment that it
never uses; that dead computation is not modelled.) -/
def analyze_sentiment_recs (developer_id : String)
    (sentiment_scores : List SentimentScore) : List Recommendation :=
  if sentiment_scores = [] then []
  else
    let negative_count :=
      (sentiment_scores.filter (fun s => s.label = .negative)).length
    let neg_fraction : ℚ := (negative_count : ℚ) / sentiment_scores.length
    if neg_fraction > 3/10 then
      [{ developerId := developer_id, type := "collaboration_tone",
         title := "Improve Collaboration Tone",
         description := .collaborationTone neg_fraction,
         actionItems :=
           ["Focus on constructive feedback in code reviews",
            "Acknowledge good work from teammates",
            "Use \x22we\x22 language instead of \x22you\x22 when discussing issues",
            "Take breaks if feeling frustrated before responding"],
         priority := .medium }]
    else []

/-- `RecommendationEngine.generate_recommendations`
(recommendation_engine.py lines 22-61): the four rule sets concatenated
in source order. -/
def generate_recommendations (developer_id : String) (activities : List Activity)
    (anomalies : List Anomaly) (quality_reports : List CodeQualityReport)
    (sentiment_scores : List SentimentScore) : List Recommendation :=
  analyze_activity_patterns developer_id activities ++
  analyze_anomalies developer_id anomalies ++
  analyze_code_quality developer_id quality_reports ++
  analyze_sentiment_recs developer_id sentiment_scores

end RecommendationEngine

/-! ## Concrete inputs used by counterexamples and witnesses -/

/-- A commit activity at midnight of day `d`. -/
def commitOn (d : ℕ) : Activity := { type := "commit", timestamp := (d : ℚ) }

/-- A commit activity at noon of day `d`. -/
def commitAtNoon (d : ℕ) : Activity := { type := "commit", timestamp := (d : ℚ) + 1/2 }

/-- A model run that flags no outliers. -/
def all_inliers : AnomalyDetector.OutlierModelFn := fun rows => .ok (rows.map fun _ => 1)

/-- 3 commits at noon on each of days 0-6, one commit at noon of day 8:
22 activities, daily counts `[3,3,3,3,3,3,3,0,1]`, first timestamp 1/2. -/
def noonDropActs : List Activity :=
  ((List.range 7).flatMap fun d => List.replicate 3 (commitAtNoon d)) ++ [commitAtNoon 8]

/-- 20 commits on each of days 0-13 followed by 1 commit on each of days
14-20: 287 activities, daily counts 14 × 20 then 7 × 1. -/
def steadyTrailActs : List Activity :=
  ((List.range 14).flatMap fun d => List.replicate 20 (commitOn d)) ++
  ((List.range 7).map fun d => commitOn (14 + d))

/-- 20 commits on each of days 0-13, nothing on days 14-19, 1 commit on
day 20: 281 activities, daily counts 14 × 20, then 6 × 0, then 1. -/
def zeroDayActs : List Activity :=
  ((List.range 14).flatMap fun d => List.replicate 20 (commitOn d)) ++ [commitOn 20]

/-- 14 commits on day 0 and one on day 6: a 7-calendar-day span with more
than 14 activities. -/
def shortSpanActs : List Activity :=
  List.replicate 14 (commitOn 0) ++ [commitOn 6]

/-- 14 commit activities (no reviews). -/
def fourteenCommits : List Activity := List.replicate 14 (commitOn 0)

/-- One negative and one neutral sentiment score: negative fraction 1/2. -/
def halfNegativeScores : List SentimentScore :=
  [{ score := -(9/10), label := .negative, confidence := 1 },
   { score := 0, label := .neutral, confidence := 1/2 }]

/-! ## Sentiment invariants (claims C3, C5, C9) -/

/-- The `SentimentScore` invariant stated by the data-model section of the
spec: score in `[-1,1]`, confidence in `[0,1]`, and the label derived from
the score by the fixed `0.2` thresholds. -/
def GoodScore (s : SentimentScore) : Prop :=
  -1 ≤ s.score ∧ s.score ≤ 1 ∧ 0 ≤ s.confidence ∧ s.confidence ≤ 1 ∧
  (s.label = .positive ↔ 1/5 < s.score) ∧
  (s.label = .negative ↔ s.score < -(1/5)) ∧
  (s.label = .neutral ↔ (-(1/5) ≤ s.score ∧ s.score ≤ 1/5))

lemma goodScore_mk (q conf : ℚ) (h1 : -1 ≤ q) (h2 : q ≤ 1)
    (h3 : 0 ≤ conf) (h4 : conf ≤ 1) :
    GoodScore { score := q,
                label := if q > 1/5 then .positive
                         else if q < -(1/5) then .negative else .neutral,
                confidence := conf } := by
  unfold GoodScore
  dsimp only
  split_ifs with hp hn
  · exact ⟨h1, h2, h3, h4, iff_of_true rfl hp,
      iff_of_false (by simp) (by intro h; linarith),
      iff_of_false (by simp) (by intro h; linarith [h.2])⟩
  · exact ⟨h1, h2, h3, h4, iff_of_false (by simp) hp, iff_of_true rfl hn,
      iff_of_false (by simp) (by intro h; linarith [h.1])⟩
  · exact ⟨h1, h2, h3, h4, iff_of_false (by simp) hp, iff_of_false (by simp) hn,
      iff_of_true rfl ⟨not_lt.mp hn, not_lt.mp hp⟩⟩

lemma goodScore_neutral_zero (conf : ℚ) (h3 : 0 ≤ conf) (h4 : conf ≤ 1) :
    GoodScore { score := 0, label := .neutral, confidence := conf } := by
  unfold GoodScore
  exact ⟨by norm_num, by norm_num, h3, h4,
    iff_of_false (by simp) (by norm_num),
    iff_of_false (by simp) (by norm_num),
    iff_of_true rfl ⟨by norm_num, by norm_num⟩⟩

lemma analyze_sentiment_goodScore (classify : ClassifyFn)
    (hconf : ∀ t lbl conf, classify t = .ok (lbl, conf) → 0 ≤ conf ∧ conf ≤ 1)
    (text : String) : GoodScore (analyze_sentiment classify text) := by
  unfold analyze_sentiment
  split
  · exact goodScore_neutral_zero 1 (by norm_num) (by norm_num)
  · cases hc : classify (String.mk (text.data.take 512)) with
    | error e => exact goodScore_neutral_zero 0 (by norm_num) (by norm_num)
    | ok p =>
      obtain ⟨lbl, conf⟩ := p
      obtain ⟨hc0, hc1⟩ := hconf _ lbl conf hc
      exact goodScore_mk _ conf (by split_ifs <;> linarith)
        (by split_ifs <;> linarith) hc0 hc1

lemma list_sum_bounds (a b : ℚ) :
    ∀ l : List ℚ, (∀ x ∈ l, a ≤ x ∧ x ≤ b) →
      (l.length : ℚ) * a ≤ l.sum ∧ l.sum ≤ (l.length : ℚ) * b := by
  intro l
  induction l with
  | nil => intro _; simp
  | cons x xs ih =>
    intro h
    have hx := h x (by simp)
    have hxs : ∀ y ∈ xs, a ≤ y ∧ y ≤ b := fun y hy => h y (by simp [hy])
    obtain ⟨ih1, ih2⟩ := ih hxs
    simp only [List.sum_cons, List.length_cons]
    push_cast
    constructor <;> linarith [hx.1, hx.2]

lemma get_average_sentiment_goodScore (classify : ClassifyFn)
    (hconf : ∀ t lbl conf, classify t = .ok (lbl, conf) → 0 ≤ conf ∧ conf ≤ 1)
    (comments : List String) : GoodScore (get_average_sentiment classify comments) := by
  unfold get_average_sentiment
  split
  · exact goodScore_neutral_zero 1 (by norm_num) (by norm_num)
  · rename_i hne
    have hmem : ∀ s ∈ analyze_comments classify comments, GoodScore s := by
      intro s hs
      obtain ⟨t, _, rfl⟩ := List.mem_map.mp hs
      exact analyze_sentiment_goodScore classify hconf t
    set scores := analyze_comments classify comments with hscores
    have hlen : 0 < (scores.length : ℚ) := by
      have : scores ≠ [] := by
        simp only [hscores, analyze_comments]
        exact fun h => hne (List.map_eq_nil_iff.mp h)
      have := List.length_pos.mpr this
      exact_mod_cast this
    have hsb : ((scores.map (·.score)).length : ℚ) * (-1) ≤ (scores.map (·.score)).sum ∧
        (scores.map (·.score)).sum ≤ ((scores.map (·.score)).length : ℚ) * 1 := by
      refine list_sum_bounds (-1) 1 _ ?_
      intro x hx
      obtain ⟨s, hs, rfl⟩ := List.mem_map.mp hx
      obtain ⟨g1, g2, _⟩ := hmem s hs
      exact ⟨g1, g2⟩
    have hcb : ((scores.map (·.confidence)).length : ℚ) * 0 ≤ (scores.map (·.confidence)).sum ∧
        (scores.map (·.confidence)).sum ≤ ((scores.map (·.confidence)).length : ℚ) * 1 := by
      refine list_sum_bounds 0 1 _ ?_
      intro x hx
      obtain ⟨s, hs, rfl⟩ := List.mem_map.mp hx
      obtain ⟨_, _, g3, g4, _⟩ := hmem s hs
      exact ⟨g3, g4⟩
    simp only [List.length_map] at hsb hcb
    refine goodScore_mk _ _ ?_ ?_ ?_ ?_
    · rw [le_div_iff₀ hlen]; linarith [hsb.1]
    · rw [div_le_one hlen]; linarith [hsb.2]
    · exact div_nonneg (by linarith [hcb.1]) (le_of_lt hlen)
    · rw [div_le_one hlen]; linarith [hcb.2]

/-- C3: Every `SentimentScore` returned by `analyze_sentiment` or
`get_average_sentiment` (assuming the classifier returns confidence in
`[0,1]`) satisfies: score in `[-1,1]`, confidence in `[0,1]`, and label
derived from the score by the fixed thresholds (positive iff score > 0.2,
negative iff score < -0.2, neutral otherwise). -/
theorem C3_sentiment_invariants (classify : ClassifyFn)
    (hconf : ∀ t lbl conf, classify t = .ok (lbl, conf) → 0 ≤ conf ∧ conf ≤ 1) :
    (∀ text, GoodScore (analyze_sentiment classify text)) ∧
    (∀ comments, GoodScore (get_average_sentiment classify comments)) :=
  ⟨analyze_sentiment_goodScore classify hconf,
   get_average_sentiment_goodScore classify hconf⟩

/-- Witness for C3 at a concrete classifier and inputs. -/
theorem C3_witness :
    GoodScore (analyze_sentiment (fun _ => .ok ("POSITIVE", 9/10)) "great work") ∧
    GoodScore (get_average_sentiment (fun _ => .ok ("POSITIVE", 9/10)) ["a", "b"]) := by
  have h := C3_sentiment_invariants (fun _ => .ok ("POSITIVE", 9/10))
    (by intro t lbl conf h; injection h with h'; injection h' with h1 h2
        subst h2; exact ⟨by norm_num, by norm_num⟩)
  exact ⟨h.1 "great work", h.2 ["a", "b"]⟩

/-- C5: whenever the classifier call inside `analyze_sentiment` raises an
error on non-empty (non-whitespace) input, the function returns
`{score: 0, label: neutral, confidence: 0}`; the error is not propagated
(the embedded function is total and returns this record). -/
theorem C5_classifier_error_fallback (classify : ClassifyFn) (text : String) (e : Unit)
    (h1 : pyStrip text.data ≠ [])
    (h2 : classify (String.mk (text.data.take 512)) = .error e) :
    analyze_sentiment classify text = { score := 0, label := .neutral, confidence := 0 } := by
  unfold analyze_sentiment
  rw [if_neg h1, h2]

/-- Witness for C5 at a concrete always-failing classifier. -/
theorem C5_witness :
    analyze_sentiment (fun _ => .error ()) "hi" =
      { score := 0, label := .neutral, confidence := 0 } :=
  C5_classifier_error_fallback (fun _ => .error ()) "hi" () (by decide) rfl

/-- Counterexample to C9 as stated: the raw classifier label `"POSITIVE"`
is (as a string) neither `'positive'` nor `'negative'`, yet
`analyze_sentiment` does not return score 0 / label neutral for it — the
code lowercases the raw label before comparing, so `"POSITIVE"` is treated
as positive and the score is the (nonzero) confidence. -/
theorem C9_cex :
    analyze_sentiment (fun _ => .ok ("POSITIVE", 9/10)) "ok" =
      { score := 9/10, label := .positive, confidence := 9/10 } ∧
    "POSITIVE" ≠ "positive" ∧ "POSITIVE" ≠ "negative" ∧ ((9:ℚ)/10 ≠ 0) := by
  refine ⟨by decide, by decide, by decide, by norm_num⟩

/-- C9 (amended): if the classifier returns a label whose lowercase form
is neither `'positive'` nor `'negative'` for a non-empty text,
`analyze_sentiment` returns score 0 and label neutral but passes the
classifier's confidence value through unchanged (unlike the failure
branch, which forces confidence to 0). -/
theorem C9_unknown_label_passthrough (classify : ClassifyFn) (text : String)
    (lbl : String) (conf : ℚ)
    (h0 : pyStrip text.data ≠ [])
    (h1 : classify (String.mk (text.data.take 512)) = .ok (lbl, conf))
    (h2 : pyLower lbl.data ≠ "positive".data)
    (h3 : pyLower lbl.data ≠ "negative".data) :
    analyze_sentiment classify text = { score := 0, label := .neutral, confidence := conf } := by
  unfold analyze_sentiment
  rw [if_neg h0, h1]
  simp only [if_neg h2, if_neg h3]
  norm_num

/-- Witness for the amended C9 at a concrete classifier returning the
label `"LABEL_1"`. -/
theorem C9_witness :
    analyze_sentiment (fun _ => .ok ("LABEL_1", 3/4)) "x" =
      { score := 0, label := .neutral, confidence := 3/4 } :=
  C9_unknown_label_passthrough (fun _ => .ok ("LABEL_1", 3/4)) "x" "LABEL_1" (3/4)
    (by decide) rfl (by decide) (by decide)

/-! ## Sentiment alerts (claim C4) -/

lemma very_negative_alerts_type (pr : ℤ) (scores : List SentimentScore) :
    ∀ a ∈ very_negative_alerts pr scores, a.type = "very_negative_comment" := by
  intro a ha
  unfold very_negative_alerts at ha
  obtain ⟨p, _, he⟩ := List.mem_filterMap.mp ha
  split at he
  · cases he
    rfl
  · cases he

lemma filter_very_negative (pr : ℤ) (scores : List SentimentScore) :
    (very_negative_alerts pr scores).filter (fun a => a.type = "negative_sentiment") = [] := by
  rw [List.filter_eq_nil_iff]
  intro a ha
  have := very_negative_alerts_type pr scores a ha
  simp [this]

lemma neg_sentiment_alerts_eq_filter_ratio (pr : ℤ) (scores : List SentimentScore)
    (h : scores ≠ []) :
    neg_sentiment_alerts pr scores =
      (ratio_based_alerts pr scores).filter (fun a => a.type = "negative_sentiment") := by
  unfold neg_sentiment_alerts generate_sentiment_alerts
  rw [if_neg h, List.filter_append, filter_very_negative, List.append_nil]

/-- C4: `generate_sentiment_alerts` returns `[]` on empty input;
otherwise, with `negativeRatio` the fraction of negative-labelled scores,
it emits exactly one high-severity `negative_sentiment` alert when the
ratio exceeds 0.4, exactly one medium-severity one when the ratio is in
(0.25, 0.4], and no ratio-based alert otherwise — never both severities
on one call. -/
theorem C4_negative_sentiment_alert_policy (pr : ℤ) (scores : List SentimentScore) :
    (scores = [] → generate_sentiment_alerts pr scores = []) ∧
    (scores ≠ [] → 2/5 < negative_fraction_of scores →
      neg_sentiment_alerts pr scores =
        [{ type := "negative_sentiment", severity := .high,
           message := .highNegativeSentiment pr (negative_fraction_of scores),
           relatedEntity := toString pr }]) ∧
    (scores ≠ [] → 1/4 < negative_fraction_of scores →
        negative_fraction_of scores ≤ 2/5 →
      neg_sentiment_alerts pr scores =
        [{ type := "negative_sentiment", severity := .medium,
           message := .elevatedNegativeSentiment pr (negative_fraction_of scores),
           relatedEntity := toString pr }]) ∧
    (scores ≠ [] → negative_fraction_of scores ≤ 1/4 →
      neg_sentiment_alerts pr scores = []) := by
  refine ⟨?_, ?_, ?_, ?_⟩
  · intro h
    simp [generate_sentiment_alerts, h]
  · intro h hgt
    rw [neg_sentiment_alerts_eq_filter_ratio pr scores h]
    unfold ratio_based_alerts
    rw [if_pos hgt]
    simp [List.filter]
  · intro h hgt hle
    rw [neg_sentiment_alerts_eq_filter_ratio pr scores h]
    unfold ratio_based_alerts
    rw [if_neg (not_lt.mpr hle), if_pos hgt]
    simp [List.filter]
  · intro h hle
    rw [neg_sentiment_alerts_eq_filter_ratio pr scores h]
    unfold ratio_based_alerts
    rw [if_neg (not_lt.mpr (le_trans hle (by norm_num))), if_neg (not_lt.mpr hle)]
    rfl

/-- Witness for C4: two scores, one negative (ratio 1/2 > 0.4), yield
exactly the single high-severity alert. -/
theorem C4_witness :
    neg_sentiment_alerts 5 halfNegativeScores =
      [{ type := "negative_sentiment", severity := .high,
         message := .highNegativeSentiment 5 (negative_fraction_of halfNegativeScores),
         relatedEntity := toString (5 : ℤ) }] :=
  (C4_negative_sentiment_alert_policy 5 halfNegativeScores).2.1 (by decide) (by decide)

/-! ## Productivity-drop detection (claims C2, C6, C10) -/

namespace AnomalyDetector

lemma mem_detect_productivity_drops
    (developer_id : String) (acts : List Activity) (i : ℕ)
    (h14 : 14 ≤ acts.length) (hi7 : 7 ≤ i) (hilen : i < (dailyOf acts).length)
    (havg : 2 < windowAvg acts i)
    (hcur : (dayCount acts i : ℚ) < windowAvg acts i * (3/10)) :
    mkDropAnomaly developer_id (firstTs acts) i (dayCount acts i) (windowAvg acts i)
      ∈ detect_productivity_drops developer_id acts := by
  unfold detect_productivity_drops
  rw [if_neg (by omega), if_neg (by omega)]
  refine List.mem_filterMap.mpr ⟨i, ?_, ?_⟩
  · exact List.mem_range'.mpr ⟨i - 7, by omega, by omega⟩
  · rw [if_pos ⟨havg, hcur⟩]

lemma of_mem_detect_productivity_drops
    (developer_id : String) (acts : List Activity) (a : Anomaly)
    (ha : a ∈ detect_productivity_drops developer_id acts) :
    ∃ i, 7 ≤ i ∧ i < (dailyOf acts).length ∧
      2 < windowAvg acts i ∧
      (dayCount acts i : ℚ) < windowAvg acts i * (3/10) ∧
      a = mkDropAnomaly developer_id (firstTs acts) i (dayCount acts i) (windowAvg acts i) := by
  unfold detect_productivity_drops at ha
  split at ha
  · cases ha
  · split at ha
    · cases ha
    · rename_i hlen7
      obtain ⟨i, hi, he⟩ := List.mem_filterMap.mp ha
      obtain ⟨j, hj, rfl⟩ := List.mem_range'.mp hi
      split at he
      · rename_i hcond
        cases he
        exact ⟨7 + 1 * j, by omega, by omega, hcond.1, hcond.2, rfl⟩
      · cases he

/-- C10: whenever the daily-count list of the (sorted) activities has at
most 7 buckets — i.e. the first and last activities lie within a span of
at most 7 calendar days — the productivity-drop pass emits no anomalies,
regardless of how many activities there are. -/
theorem C10_short_span_no_drops (developer_id : String) (acts : List Activity)
    (h : (dailyOf acts).length ≤ 7) :
    detect_productivity_drops developer_id acts = [] := by
  unfold detect_productivity_drops
  split
  · rfl
  · split
    · rfl
    · rename_i h2
      have hlen : (dailyOf acts).length - 7 = 0 := by omega
      rw [hlen]
      rfl

/-- Witness for C10: 15 activities spanning exactly 7 calendar days (so
neither length gate short-circuits vacuously for the 14-activity bound). -/
theorem C10_witness :
    shortSpanActs.length = 15 ∧ (dailyOf shortSpanActs).length = 7 ∧
    detect_productivity_drops "d" shortSpanActs = [] :=
  ⟨by decide, by decide, C10_short_span_no_drops "d" shortSpanActs (by decide)⟩

/-- Counterexample to C2 as stated: for activities all timestamped at
noon, the affected time range of the emitted anomaly at day index 7 is
the 24-hour window `[firstTs + 7, firstTs + 8]` = `[7.5, 8.5]`, which is
not the calendar day `[⌊firstTs⌋ + 7, ⌊firstTs⌋ + 8]` = `[7, 8]` of that
day's bucket. -/
theorem C2_cex :
    (detect_productivity_drops "d" noonDropActs).map
      (fun a => (a.affectedStart, a.affectedStop)) = [((15:ℚ)/2, 17/2)] ∧
    ((15:ℚ)/2, (17:ℚ)/2) ≠
      (((⌊firstTs noonDropActs⌋ : ℚ) + 7), ((⌊firstTs noonDropActs⌋ : ℚ) + 8)) := by
  exact ⟨by decide, by decide⟩

/-- C2 (amended): for ≥14 activities with ≥7 daily buckets, the
productivity-drop pass emits an anomaly at day index `i` (7 ≤ i < number
of buckets) exactly when the mean of the prior 7 daily counts exceeds 2
and day `i`'s count is below 0.3 times that mean; each emitted anomaly is
exactly the record with type `productivity_drop`, severity `high` iff the
day's count is 0 (else `medium`), description citing the exact current
count and window average, and an affected time range that is the 24-hour
window starting at the first activity's timestamp plus `i` days (the
calendar day itself only when the first activity is at midnight) — and
nothing else is emitted. -/
theorem C2_drop_characterization (developer_id : String) (acts : List Activity)
    (h14 : 14 ≤ acts.length) (h7 : 7 ≤ (dailyOf acts).length) :
    (∀ i, 7 ≤ i → i < (dailyOf acts).length →
      ((2 < windowAvg acts i ∧ (dayCount acts i : ℚ) < windowAvg acts i * (3/10)) ↔
        mkDropAnomaly developer_id (firstTs acts) i (dayCount acts i) (windowAvg acts i)
          ∈ detect_productivity_drops developer_id acts)) ∧
    (∀ a ∈ detect_productivity_drops developer_id acts,
      ∃ i, 7 ≤ i ∧ i < (dailyOf acts).length ∧
        2 < windowAvg acts i ∧ (dayCount acts i : ℚ) < windowAvg acts i * (3/10) ∧
        a = mkDropAnomaly developer_id (firstTs acts) i (dayCount acts i)
          (windowAvg acts i)) := by
  constructor
  · intro i hi7 hilen
    constructor
    · intro ⟨havg, hcur⟩
      exact mem_detect_productivity_drops developer_id acts i h14 hi7 hilen havg hcur
    · intro hmem
      obtain ⟨j, hj7, hjlen, havgj, hcurj, heq⟩ :=
        of_mem_detect_productivity_drops developer_id acts _ hmem
      have hstart := congrArg Anomaly.affectedStart heq
      simp only [mkDropAnomaly] at hstart
      have hcast : (i : ℚ) = (j : ℚ) := by linarith
      have hij : i = j := Nat.cast_inj.mp hcast
      subst hij
      exact ⟨havgj, hcurj⟩
  · exact of_mem_detect_productivity_drops developer_id acts

/-- Witness for the amended C2 at the concrete noon-timestamped input:
day index 7 satisfies the trigger (window average 3 > 2, current count
0 < 0.9) and its anomaly record is emitted. -/
theorem C2_witness :
    mkDropAnomaly "d" (firstTs noonDropActs) 7 (dayCount noonDropActs 7)
      (windowAvg noonDropActs 7) ∈ detect_productivity_drops "d" noonDropActs :=
  (((C2_drop_characterization "d" noonDropActs (by decide) (by decide)).1
    7 (by norm_num) (by decide)).mp ⟨by decide, by decide⟩)

lemma dayCount_eq_getElem (acts : List Activity) (i : ℕ)
    (h : i < (dailyOf acts).length) : dayCount acts i = (dailyOf acts)[i] := by
  unfold dayCount
  rw [List.getD_eq_getElem?_getD, List.getElem?_eq_getElem h]
  rfl

/-- C6 (amended): for an activity log of ≥14 activities whose daily
counts are 20 on each of the first 14 days and span at most 21 days, if
some day `d ≥ 14` inside the span has 0 activities, then
`detect_anomalies` (with any outlier model) returns a `productivity_drop`
anomaly of severity `high` whose description cites a count of 0 and whose
affected range starts at day `d`. -/
theorem C6_high_drop_on_zero_day (model : OutlierModelFn) (developer_id : String)
    (acts : List Activity) (d : ℕ)
    (h14 : 14 ≤ acts.length)
    (hlen21 : (dailyOf acts).length ≤ 21)
    (hfirst : ∀ i, i < 14 → dayCount acts i = 20)
    (hd14 : 14 ≤ d) (hdlen : d < (dailyOf acts).length)
    (hzero : dayCount acts d = 0) :
    ∃ a ∈ detect_anomalies model developer_id acts,
      a.type = "productivity_drop" ∧ a.severity = .high ∧
      a.description = .productivityDrop 0 (windowAvg acts d) ∧
      a.affectedStart = firstTs acts + d := by
  have hd7lt : d - 7 < (dailyOf acts).length := by omega
  have h20 : (dailyOf acts)[d-7] = 20 := by
    rw [← dayCount_eq_getElem acts (d-7) hd7lt]
    exact hfirst (d-7) (by omega)
  -- the window over days d-7 .. d-1 contains the count 20 of day d-7
  have hwlen : 0 < (((dailyOf acts).drop (d-7)).take 7).length := by
    simp only [List.length_take, List.length_drop]
    omega
  have hw0 : (((dailyOf acts).drop (d-7)).take 7)[0] = (dailyOf acts)[d-7] := by
    rw [List.getElem_take, List.getElem_drop]
    simp
  have hmem20 : (20 : ℕ) ∈ ((dailyOf acts).drop (d-7)).take 7 := by
    rw [← h20, ← hw0]
    exact List.getElem_mem hwlen
  have hmem20q : ((20 : ℕ) : ℚ) ∈ (((dailyOf acts).drop (d-7)).take 7).map (fun n : ℕ => (n : ℚ)) := by
    simp only [List.mem_map]
    exact ⟨20, hmem20, rfl⟩
  have hsum : ((20 : ℕ) : ℚ) ≤ ((((dailyOf acts).drop (d-7)).take 7).map (fun n : ℕ => (n : ℚ))).sum := by
    refine List.single_le_sum ?_ _ hmem20q
    intro x hx
    simp only [List.mem_map] at hx
    obtain ⟨n, -, rfl⟩ := hx
    exact Nat.cast_nonneg n
  push_cast at hsum
  have havg : 2 < windowAvg acts d := by
    unfold windowAvg
    rw [lt_div_iff₀ (by norm_num : (0:ℚ) < 7)]
    linarith
  have hcur : ((dayCount acts d : ℕ) : ℚ) < windowAvg acts d * (3/10) := by
    rw [hzero]
    push_cast
    exact mul_pos (by linarith) (by norm_num)
  have hmem := mem_detect_productivity_drops developer_id acts d h14 (by omega) hdlen havg hcur
  rw [hzero] at hmem
  unfold detect_anomalies
  rw [if_neg (by omega)]
  exact ⟨mkDropAnomaly developer_id (firstTs acts) d 0 (windowAvg acts d),
    List.mem_append_left _ hmem, rfl, rfl, rfl, rfl⟩

set_option maxRecDepth 1000000 in
/-- Counterexample to C6 as stated: 14 days of 20 commits/day followed by
7 days of exactly 1 commit/day (which is "at most 1 commit per day") —
every triggered day has count 1, so every emitted anomaly is `medium` and
no `high`-severity productivity drop on a 0-commit day exists. -/
theorem C6_cex :
    dailyOf steadyTrailActs = List.replicate 14 20 ++ List.replicate 7 1 ∧
    (detect_anomalies all_inliers "dev" steadyTrailActs).all
      (fun a => !(a.type == "productivity_drop" && a.severity == Severity.high)) = true := by
  exact ⟨by decide, by decide⟩

set_option maxRecDepth 1000000 in
/-- Witness for the amended C6: 20 commits on days 0-13 and one commit on
day 20; day 14 has 0 activities and a high-severity drop is reported
there. -/
theorem C6_witness :
    ∃ a ∈ detect_anomalies all_inliers "w" zeroDayActs,
      a.type = "productivity_drop" ∧ a.severity = .high ∧
      a.description = .productivityDrop 0 (windowAvg zeroDayActs 14) ∧
      a.affectedStart = firstTs zeroDayActs + (14:ℕ) :=
  C6_high_drop_on_zero_day all_inliers "w" zeroDayActs 14 (by decide) (by decide)
    (by decide) (by norm_num) (by decide) (by decide)

end AnomalyDetector

/-! ## Review-participation recommendation (claim C7) -/

namespace RecommendationEngine

/-- Counterexample to C7 as stated: 14 activities, none of them reviews
(review ratio 0 < 0.15, total 14 > 10).  The emitted recommendation's
first action item cites `int(14 × 0.20 − 0) = 2` (Python truncation),
whereas the claim's `round(14 × 0.20 − 0) = round(2.8) = 3`. -/
theorem C7_cex :
    ((generate_recommendations "dev" fourteenCommits [] [] []).filter
      (fun r => r.type = "code_review_participation")).map
      (fun r => r.actionItems.head?) =
      [some "Review 2 more pull requests this week"] ∧
    round ((14:ℚ) * (1/5) - (0:ℚ)) = 3 ∧
    "Review 2 more pull requests this week" ≠
      "Review 3 more pull requests this week" := by
  refine ⟨by decide, ?_, by decide⟩
  norm_num [round_eq]

/-- C7 (amended): for total counted activities above 10 and review ratio
below 0.15, `generate_recommendations` includes a medium-priority
`code_review_participation` recommendation whose first action item cites
a target review count equal to the TRUNCATION (Python `int()`) of
0.20 × total − current review count (not the rounding). -/
theorem C7_review_target_truncated (developer_id : String) (activities : List Activity)
    (anomalies : List Anomaly) (quality_reports : List CodeQualityReport)
    (sentiment_scores : List SentimentScore)
    (h1 : 10 < counted_total activities)
    (h2 : (activity_type_count activities "review" : ℚ) / counted_total activities < 3/20) :
    { developerId := developer_id, type := "code_review_participation",
      title := "Increase Code Review Participation",
      description := .reviewParticipation
        ((activity_type_count activities "review" : ℚ) / counted_total activities),
      actionItems :=
        ["Review " ++ toString (pyIntTrunc ((counted_total activities : ℚ) * (1/5) -
           activity_type_count activities "review")) ++ " more pull requests this week",
         "Set aside 30 minutes daily for code reviews",
         "Subscribe to PR notifications for your team"],
      priority := .medium } ∈
      generate_recommendations developer_id activities anomalies quality_reports
        sentiment_scores := by
  have hne : activities ≠ [] := by
    intro h
    subst h
    simp [counted_total, activity_type_count] at h1
  unfold generate_recommendations
  apply List.mem_append_left
  apply List.mem_append_left
  apply List.mem_append_left
  unfold analyze_activity_patterns
  rw [if_neg hne]
  apply List.mem_append_left
  rw [if_pos ⟨h1, h2⟩]
  exact List.mem_singleton_self _

/-- Witness for the amended C7 at 14 commit activities (truncated target
2). -/
theorem C7_witness :
    { developerId := "w", type := "code_review_participation",
      title := "Increase Code Review Participation",
      description := .reviewParticipation
        ((activity_type_count fourteenCommits "review" : ℚ) / counted_total fourteenCommits),
      actionItems :=
        ["Review " ++ toString (pyIntTrunc ((counted_total fourteenCommits : ℚ) * (1/5) -
           activity_type_count fourteenCommits "review")) ++ " more pull requests this week",
         "Set aside 30 minutes daily for code reviews",
         "Subscribe to PR notifications for your team"],
      priority := .medium } ∈
      generate_recommendations "w" fourteenCommits [] [] [] :=
  C7_review_target_truncated "w" fourteenCommits [] [] [] (by decide) (by decide)

end RecommendationEngine

/-! ## Documentation pass and quality report (claims C1, C8) -/

namespace CodeQualityAnalyzer

/-- Counterexample to C8 as stated: the line `"""x"""` contains both an
opening and a closing triple-quote marker, yet the `in_docstring` flag
does not stay in its previous state (false): the code tests marker
CONTAINMENT once per line and toggles once, leaving the flag true. -/
theorem C8_cex :
    contains_triple_quote (pyStrip "\"\"\"x\"\"\"".data) = true ∧
    (doc_line_step (false, 0) "\"\"\"x\"\"\"".data).1 ≠ false := by
  exact ⟨by decide, by decide⟩

/-- C8 (amended): for the python language the documentation pass counts a
line when its stripped form contains a triple-quote marker, or (otherwise)
when the flag is set or the line starts with `#`; the flag toggles once
per LINE containing at least one marker — so after any list of lines the
flag equals the initial flag XOR the parity of the number of
marker-containing lines, and a single line holding both an opening and a
closing marker flips the flag. -/
theorem C8_docstring_toggle_per_line :
    (∀ st line, doc_line_step st line =
      (if contains_triple_quote (pyStrip line) then (!st.1, st.2 + 1)
       else if st.1 || "#".data.isPrefixOf (pyStrip line) then (st.1, st.2 + 1)
       else st)) ∧
    (∀ (lines : List (List Char)) (b : Bool) (n : ℕ),
      (lines.foldl doc_line_step (b, n)).1 =
        (b != ((lines.countP (fun l => contains_triple_quote (pyStrip l))) % 2 == 1))) := by
  constructor
  · intro st line
    rfl
  · intro lines
    induction lines with
    | nil =>
      intro b n
      simp
    | cons l ls ih =>
      intro b n
      by_cases h : contains_triple_quote (pyStrip l)
      · have hstep : doc_line_step (b, n) l = (!b, n + 1) := by
          unfold doc_line_step
          rw [if_pos h]
        have hparity :
            (((ls.countP fun l => contains_triple_quote (pyStrip l)) + 1) % 2 == 1) =
              !((ls.countP fun l => contains_triple_quote (pyStrip l)) % 2 == 1) := by
          rcases Nat.mod_two_eq_zero_or_one
              (ls.countP fun l => contains_triple_quote (pyStrip l)) with hp | hp <;>
            rw [Nat.add_mod, hp] <;> decide
        rw [List.foldl_cons, hstep, ih, List.countP_cons]
        simp only [h, if_true]
        rw [hparity]
        cases b <;>
          cases hx : ((ls.countP fun l => contains_triple_quote (pyStrip l)) % 2 == 1) <;>
          rfl
      · have hstep : (doc_line_step (b, n) l).1 = b := by
          unfold doc_line_step
          rw [if_neg h]
          split <;> rfl
        have hcount : (l :: ls).countP (fun l => contains_triple_quote (pyStrip l)) =
            ls.countP (fun l => contains_triple_quote (pyStrip l)) := by
          simp [List.countP_cons, h]
        rcases hsd : doc_line_step (b, n) l with ⟨b2, m⟩
        have hb2 : b2 = b := by
          rw [hsd] at hstep
          exact hstep
        rw [List.foldl_cons, hsd, hb2, hcount]
        exact ih b m

lemma analyze_complexity_bounds (code language : String) :
    0 ≤ analyze_complexity code language ∧ analyze_complexity code language ≤ 100 := by
  unfold analyze_complexity
  dsimp only
  split
  · norm_num
  · split
    · norm_num
    · exact ⟨le_max_left 0 _, max_le (by norm_num) (min_le_left _ _)⟩

lemma mul100_bounds (q : ℚ) (h0 : 0 ≤ q) (h1 : q ≤ 1) : 0 ≤ q * 100 ∧ q * 100 ≤ 100 :=
  ⟨by positivity, by linarith⟩

lemma analyze_documentation_bounds (code language : String) :
    0 ≤ analyze_documentation code language ∧ analyze_documentation code language ≤ 100 := by
  unfold analyze_documentation
  dsimp only
  split
  · norm_num
  · split
    · norm_num
    · refine mul100_bounds _ ?_ ?_
      · split
        · exact le_min (by norm_num) (div_nonneg (Nat.cast_nonneg _) (Nat.cast_nonneg _))
        · exact le_min (by norm_num)
            (div_nonneg (Nat.cast_nonneg _) (mul_nonneg (Nat.cast_nonneg _) (by norm_num)))
      · split
        · exact min_le_left _ _
        · exact min_le_left _ _

set_option maxHeartbeats 1000000 in
lemma analyze_standards_bounds (code language : String) :
    0 ≤ analyze_standards code language ∧ analyze_standards code language ≤ 100 := by
  unfold analyze_standards
  dsimp only
  split
  · norm_num
  · constructor
    · split <;> split <;> first
        | norm_num
        | exact le_max_left 0 _
    · split <;> split <;> first
        | norm_num
        | exact max_le (by norm_num) (min_le_left _ _)

/-- C1: for every commit id, code string and language tag, the quality
report's four numeric fields all lie in `[0,100]` and the overall score is
the arithmetic mean of the three dimension scores.  (The `issues` field is
a `List String` by construction of the embedding, possibly empty.) -/
theorem C1_quality_report_bounds (commit_hash code language : String) :
    0 ≤ (analyze_code_quality commit_hash code language).complexity ∧
    (analyze_code_quality commit_hash code language).complexity ≤ 100 ∧
    0 ≤ (analyze_code_quality commit_hash code language).documentation ∧
    (analyze_code_quality commit_hash code language).documentation ≤ 100 ∧
    0 ≤ (analyze_code_quality commit_hash code language).standards ∧
    (analyze_code_quality commit_hash code language).standards ≤ 100 ∧
    0 ≤ (analyze_code_quality commit_hash code language).overallScore ∧
    (analyze_code_quality commit_hash code language).overallScore ≤ 100 ∧
    (analyze_code_quality commit_hash code language).overallScore =
      ((analyze_code_quality commit_hash code language).complexity +
       (analyze_code_quality commit_hash code language).documentation +
       (analyze_code_quality commit_hash code language).standards) / 3 := by
  obtain ⟨hc0, hc1⟩ := analyze_complexity_bounds code language
  obtain ⟨hd0, hd1⟩ := analyze_documentation_bounds code language
  obtain ⟨hs0, hs1⟩ := analyze_standards_bounds code language
  refine ⟨hc0, hc1, hd0, hd1, hs0, hs1, ?_, ?_, rfl⟩
  · show 0 ≤ (analyze_complexity code language + analyze_documentation code language +
      analyze_standards code language) / 3
    positivity
  · show (analyze_complexity code language + analyze_documentation code language +
      analyze_standards code language) / 3 ≤ 100
    linarith

end CodeQualityAnalyzer

end AIAnalysis
